import Mathlib

/-!
Verification of the data-preper pipeline script (prep_data.py).

The script reads a YAML configuration into a validated `Preper` dataclass,
then runs three external commands in order (feature extraction, feature
matching, mapping), with optional interactive confirmation before each stage.
We embed the configuration model, the command builders and the orchestrator
`run_sfm` as executable Lean definitions, and record the externally visible
behaviour of a run (commands launched, directories created, messages printed,
operator prompts) as a trace of events together with a final outcome.
-/

set_option maxRecDepth 8192

namespace DataPreper

/-- YAML scalar values as they reach the dataclass: strings, integers, or
null.  (prep_data.py loads the file with yaml.SafeLoader and passes the raw
values through; paths stay strings.) -/
inductive Value where
  | vstr : String → Value
  | vint : Int → Value
  | vnull : Value
deriving DecidableEq, Repr

/-- Python str() of a scalar, as used when the value is interpolated into a
command string via an f-string. -/
def Value.pystr : Value → String
  | .vstr s => s
  | .vint n => toString n
  | .vnull => "None"

/-- Errors the script can raise before or during a run.  `invalidEnumValue`
carries the payload of the ValueError raised by Preper.__post_init__
(its Python message is
"Invalid value <value for field [name]. Allowed values are: allowed.");
`noValuePassed` is the second ValueError of __post_init__; `keyError` is the
KeyError raised by a dict subscript in read_config_file; `fileNotFound` is the
FileNotFoundError of the vocab-tree check; `attributeError` models the
AttributeError Python raises when a method is called on None. -/
inductive PrepError where
  | invalidEnumValue : String → Value → List Value → PrepError
  | noValuePassed : String → PrepError
  | keyError : String → PrepError
  | fileNotFound : String → PrepError
  | attributeError : String → PrepError
deriving DecidableEq, Repr

/-- The Preper dataclass: seven fields, stored as the raw scalar values the
caller passed (Python performs no conversion on dataclass assignment). -/
structure Preper where
  train_method : Value
  sfm_tool : Value
  matching_method : Value
  database_path : Value
  image_dir : Value
  camera_model : Value
  use_gpu : Value
deriving DecidableEq, Repr

/-- Allowed values of the Literal type of train_method. -/
def trainMethodVals : List Value := [.vstr "nerfacto", .vstr "splatfacto"]

/-- Allowed values of the Literal type of sfm_tool. -/
def sfmToolVals : List Value := [.vstr "colmap", .vstr "glomap"]

/-- Allowed values of the Literal type of matching_method. -/
def matchingMethodVals : List Value :=
  [.vstr "exhaustive", .vstr "sequential", .vstr "vocab_tree"]

/-- Allowed values of the Literal type of camera_model. -/
def cameraModelVals : List Value :=
  [.vstr "OPENCV", .vstr "OPENCV_FISHEYE", .vstr "EQUIRECTANGULAR",
   .vstr "PINHOLE", .vstr "SIMPLE_PINHOLE"]

/-- Allowed values of the Literal type of use_gpu. -/
def useGpuVals : List Value := [.vint 0, .vint 1]

/-- One iteration of the loop in Preper.__post_init__ for a field whose type
hint has __args__ (i.e. the five Literal fields; database_path and image_dir
have plain type Path and are skipped).  First the membership check raising
ValueError, then the is-None check (unreachable for these closed sets, since
None is never a member and the membership check fires first). -/
def checkEnum (name : String) (v : Value) (allowed : List Value) :
    Except PrepError Unit :=
  if v ∉ allowed then .error (.invalidEnumValue name v allowed)
  else if v = Value.vnull then .error (.noValuePassed name)
  else .ok ()

/-- Construction of a Preper, i.e. dataclass __init__ followed by
__post_init__.  Fields are checked in declaration order; database_path and
image_dir have no __args__ and are not checked. -/
def mkPreper (tm sfm mm db img cam gpu : Value) : Except PrepError Preper :=
  match checkEnum "train_method" tm trainMethodVals with
  | .error e => .error e
  | .ok _ =>
  match checkEnum "sfm_tool" sfm sfmToolVals with
  | .error e => .error e
  | .ok _ =>
  match checkEnum "matching_method" mm matchingMethodVals with
  | .error e => .error e
  | .ok _ =>
  match checkEnum "camera_model" cam cameraModelVals with
  | .error e => .error e
  | .ok _ =>
  match checkEnum "use_gpu" gpu useGpuVals with
  | .error e => .error e
  | .ok _ => .ok ⟨tm, sfm, mm, db, img, cam, gpu⟩

/-- The parsed YAML mapping, as an association list of key/value pairs. -/
abbrev ConfigData := List (String × Value)

/-- Python dict subscript data[k]: the value if present, KeyError otherwise. -/
def getKey (data : ConfigData) (k : String) : Except PrepError Value :=
  match data.lookup k with
  | some v => .ok v
  | none => .error (.keyError k)

/-- read_config_file: subscripts the seven keys in the order they are written
in the Preper(...) call (Python evaluates call arguments left to right, so
the first absent key raises), then constructs the Preper, which runs
__post_init__ validation. -/
def read_config_file (data : ConfigData) : Except PrepError Preper :=
  match getKey data "train_method" with
  | .error e => .error e
  | .ok tm =>
  match getKey data "sfm_tool" with
  | .error e => .error e
  | .ok sfm =>
  match getKey data "matching_method" with
  | .error e => .error e
  | .ok mm =>
  match getKey data "database_path" with
  | .error e => .error e
  | .ok db =>
  match getKey data "image_dir" with
  | .error e => .error e
  | .ok img =>
  match getKey data "camera_model" with
  | .error e => .error e
  | .ok cam =>
  match getKey data "use_gpu" with
  | .error e => .error e
  | .ok gpu => mkPreper tm sfm mm db img cam gpu

/-- The seven keys read_config_file subscripts, in evaluation order. -/
def requiredKeys : List String :=
  ["train_method", "sfm_tool", "matching_method", "database_path",
   "image_dir", "camera_model", "use_gpu"]

/-- ASCII lower-casing of one character, the case mapping Python str.lower
performs on the relevant inputs (uppercase A-Z shifts by 32, everything else
is unchanged; U+004E is the only Unicode code point whose lower case is the
letter n, so the decline predicate below agrees with CPython on every
input). -/
def pyCharLower (c : Char) : Char :=
  if 65 ≤ c.toNat ∧ c.toNat ≤ 90 then Char.ofNat (c.toNat + 32) else c

/-- choice.lower(): lower-case every character. -/
def pyLower (s : String) : String := String.mk (s.data.map pyCharLower)

/-- The decision prompt_user_command takes on the operator response:
choice.lower() == "n".  True means the operator declined and the script calls
sys.exit(0). -/
def prompt_declines (choice : String) : Bool := pyLower choice == "n"

/-- Python str.endswith (and the trailing-separator test of pathlib below):
true when the second string is a suffix of the first. -/
def pyEndsWith (s post : String) : Bool := post.data.isSuffixOf s.data

/-- pathlib / on the path shapes this script produces (relative string paths;
a trailing separator on the left operand is not doubled, pathlib collapses
it). -/
def pathJoin (a b : String) : String :=
  if a = "" then b
  else if pyEndsWith a "/" then a ++ b
  else a ++ "/" ++ b

/-- sparse_dir = Path(output_dir) / preper.sfm_tool / "sparse". -/
def sparse_dir (output_dir : String) (p : Preper) : String :=
  pathJoin (pathJoin output_dir p.sfm_tool.pystr) "sparse"

/-- Python f-string rendering of the optional vocab_tree_path argument
(None prints as "None"). -/
def pyOptStr : Option String → String
  | some s => s
  | none => "None"

/-- The feature_extractor_cmd list built in run_sfm, before " ".join. -/
def feature_extractor_cmd_list (p : Preper) : List String :=
  ["colmap feature_extractor",
   "--database_path " ++ p.database_path.pystr,
   "--image_path " ++ p.image_dir.pystr,
   "--ImageReader.single_camera 1",
   "--ImageReader.camera_model " ++ p.camera_model.pystr,
   "--SiftExtraction.use_gpu " ++ p.use_gpu.pystr]

/-- The joined feature-extraction command string. -/
def feature_extractor_cmd (p : Preper) : String :=
  String.intercalate " " (feature_extractor_cmd_list p)

/-- The feature_matcher_cmd list built in run_sfm: the matcher sub-command is
named after the matching method, then database path and GPU flag; when the
method is vocab_tree the vocab-tree path is appended, wrapped in double
quotes. -/
def feature_matcher_cmd_list (p : Preper) (vocab_tree_path : Option String) :
    List String :=
  ["colmap " ++ p.matching_method.pystr ++ "_matcher",
   "--database_path " ++ p.database_path.pystr,
   "--SiftMatching.use_gpu " ++ p.use_gpu.pystr]
  ++ (if p.matching_method = Value.vstr "vocab_tree" then
        ["--VocabTreeMatching.vocab_tree_path \"" ++ pyOptStr vocab_tree_path ++ "\""]
      else [])

/-- The joined feature-matching command string. -/
def feature_matcher_cmd (p : Preper) (vocab_tree_path : Option String) : String :=
  String.intercalate " " (feature_matcher_cmd_list p vocab_tree_path)

/-- The mapper_cmd list built in run_sfm: the mapper binary is selected by
sfm_tool; the fixed bundle-adjustment tolerance flag is appended exactly when
sfm_tool is colmap. -/
def mapper_cmd_list (p : Preper) (sdir : String) : List String :=
  [p.sfm_tool.pystr ++ " mapper",
   "--database_path " ++ p.database_path.pystr,
   "--image_path " ++ p.image_dir.pystr,
   "--output_path " ++ sdir]
  ++ (if p.sfm_tool = Value.vstr "colmap" then
        ["--Mapper.ba_global_function_tolerance=1e-6"]
      else [])

/-- The joined mapping command string. -/
def mapper_cmd (p : Preper) (sdir : String) : String :=
  String.intercalate " " (mapper_cmd_list p sdir)

/-- The run_sfm vocab-tree argument check, performed right after the config is
read and before any command is built or run.  A path not ending in ".fbow"
raises FileNotFoundError; a None path raises AttributeError at
vocab_tree_path.endswith (the explicit elif-None branch of the source is dead
code, since the endswith call on None crashes first). -/
def vocabCheck (p : Preper) (vocab_tree_path : Option String) :
    Option PrepError :=
  if p.matching_method = Value.vstr "vocab_tree" then
    match vocab_tree_path with
    | none => some (.attributeError "NoneType object has no attribute endswith")
    | some vp =>
      if pyEndsWith vp ".fbow" = false then
        some (.fileNotFound
          ("Supplied file [" ++ vp ++
           "] does not end with \x27.fbow\x27, a valid vocab tree path is needed."))
      else none
  else none

/-- Environment of a run: the operator responses typed at successive prompts
(in order; an absent entry reads as the empty line) plus, for each command
string, the exit status the shell returns and the standard-error text the
child writes. -/
structure Env where
  responses : List String
  ret : String → Int
  err : String → String

/-- Externally visible events of a run: a confirmation prompt shown to the
operator, a shell command launched (subprocess.run), the two error printouts
of run_command on failure (the failing command, then the captured stderr),
and a Path.mkdir call with its parents / exist_ok flags. -/
inductive Event where
  | prompted : String → Event
  | execCmd : String → Event
  | printedCmd : String → Event
  | printedStderr : String → Event
  | mkdirCall : String → Bool → Bool → Event
deriving DecidableEq, Repr

/-- How the process ends: sys.exit(code), an uncaught Python exception, or
falling off the end of the script (exit status 0). -/
inductive Outcome where
  | exitCode : Nat → Outcome
  | raised : PrepError → Outcome
  | done : Outcome
deriving DecidableEq, Repr

/-- The operator response consumed by the k-th prompt of a run (input();
reading past the provided responses models an empty line). -/
def response (env : Env) (k : Nat) : String := env.responses.getD k ""

/-- Prompt events of one stage: one prompt if the prompt flag is on, none
otherwise. -/
def pev (pf : Bool) (label : String) : List Event :=
  if pf then [.prompted label] else []

/-- The message of the AttributeError raised when run_command, on a failing
command in verbose mode, calls decode on out.stderr, which subprocess left as
None because output was not captured. -/
def decodeMsg : String := "NoneType object has no attribute decode"

/-- run_sfm, the pipeline orchestrator, as a function from the run inputs and
the environment to the event trace and the final outcome.  It reads the
config, performs the vocab-tree check, then for each of the three stages:
optionally prompts (a declining operator response causes sys.exit(0)), then
runs the stage command via run_command, which on a non-zero exit status
prints the failing command and the captured stderr and calls sys.exit(1) —
except that in verbose mode stderr was not captured and the stderr printout
raises AttributeError after the command printout.  Before the mapping stage
the sparse directory is created with parents=True, exist_ok=True. -/
def run_sfm (data : ConfigData) (output_dir : String)
    (vocab_tree_path : Option String) (pf : Bool) (verbose : Bool)
    (env : Env) : List Event × Outcome :=
  match read_config_file data with
  | .error e => ([], .raised e)
  | .ok preper =>
  match vocabCheck preper vocab_tree_path with
  | some e => ([], .raised e)
  | none =>
  let c0 := feature_extractor_cmd preper
  if pf && prompt_declines (response env 0) then
    ([.prompted "feature extraction"], .exitCode 0)
  else if env.ret c0 ≠ 0 then
    if verbose then
      (pev pf "feature extraction" ++ [.execCmd c0, .printedCmd c0],
       .raised (.attributeError decodeMsg))
    else
      (pev pf "feature extraction" ++
         [.execCmd c0, .printedCmd c0, .printedStderr (env.err c0)],
       .exitCode 1)
  else
  let t0 := pev pf "feature extraction" ++ [.execCmd c0]
  let c1 := feature_matcher_cmd preper vocab_tree_path
  if pf && prompt_declines (response env 1) then
    (t0 ++ [.prompted "feature matching"], .exitCode 0)
  else if env.ret c1 ≠ 0 then
    if verbose then
      (t0 ++ pev pf "feature matching" ++ [.execCmd c1, .printedCmd c1],
       .raised (.attributeError decodeMsg))
    else
      (t0 ++ pev pf "feature matching" ++
         [.execCmd c1, .printedCmd c1, .printedStderr (env.err c1)],
       .exitCode 1)
  else
  let t1 := t0 ++ pev pf "feature matching" ++ [.execCmd c1]
  let sdir := sparse_dir output_dir preper
  let t2 := t1 ++ [.mkdirCall sdir true true]
  let c2 := mapper_cmd preper sdir
  if pf && prompt_declines (response env 2) then
    (t2 ++ [.prompted "mapper"], .exitCode 0)
  else if env.ret c2 ≠ 0 then
    if verbose then
      (t2 ++ pev pf "mapper" ++ [.execCmd c2, .printedCmd c2],
       .raised (.attributeError decodeMsg))
    else
      (t2 ++ pev pf "mapper" ++
         [.execCmd c2, .printedCmd c2, .printedStderr (env.err c2)],
       .exitCode 1)
  else
    (t2 ++ pev pf "mapper" ++ [.execCmd c2], .done)

/-- The command a given stage runs: 0 = extraction, 1 = matching,
2 = mapping. -/
def stageCmd (p : Preper) (odir : String) (vpath : Option String) : Nat → String
  | 0 => feature_extractor_cmd p
  | 1 => feature_matcher_cmd p vpath
  | _ => mapper_cmd p (sparse_dir odir p)

/-- The full event trace of a run (prompting enabled) in which the operator
confirms and every command succeeds up to stage i, then declines at the
prompt of stage i. -/
def declineTrace (p : Preper) (odir : String) (vpath : Option String) :
    Nat → List Event
  | 0 => [.prompted "feature extraction"]
  | 1 => [.prompted "feature extraction", .execCmd (feature_extractor_cmd p),
          .prompted "feature matching"]
  | _ => [.prompted "feature extraction", .execCmd (feature_extractor_cmd p),
          .prompted "feature matching", .execCmd (feature_matcher_cmd p vpath),
          .mkdirCall (sparse_dir odir p) true true, .prompted "mapper"]

/-- Events run_command emits on a failing command: the launch, the printout of
the failing command, and — only when output was captured, i.e. non-verbose —
the printout of the captured stderr (in verbose mode out.stderr is None and
the decode call raises before printing). -/
def failTail (verbose : Bool) (env : Env) (cmd : String) : List Event :=
  if verbose then [.execCmd cmd, .printedCmd cmd]
  else [.execCmd cmd, .printedCmd cmd, .printedStderr (env.err cmd)]

/-- How the process ends after a failing command: sys.exit(1) in captured
mode, an uncaught AttributeError (also a non-zero process exit) in verbose
mode. -/
def failOutcome (verbose : Bool) : Outcome :=
  if verbose then .raised (.attributeError decodeMsg) else .exitCode 1

/-- The full event trace of a run in which stages before i succeed, no prompt
is declined, and the command of stage i exits non-zero. -/
def failTrace (pf verbose : Bool) (p : Preper) (odir : String)
    (vpath : Option String) (env : Env) : Nat → List Event
  | 0 => pev pf "feature extraction" ++ failTail verbose env (feature_extractor_cmd p)
  | 1 => pev pf "feature extraction" ++ [.execCmd (feature_extractor_cmd p)]
         ++ pev pf "feature matching"
         ++ failTail verbose env (feature_matcher_cmd p vpath)
  | _ => pev pf "feature extraction" ++ [.execCmd (feature_extractor_cmd p)]
         ++ pev pf "feature matching" ++ [.execCmd (feature_matcher_cmd p vpath)]
         ++ [.mkdirCall (sparse_dir odir p) true true]
         ++ pev pf "mapper" ++ failTail verbose env (mapper_cmd p (sparse_dir odir p))

/-- A well-formed configuration file, as in end-to-end scenario A of the
spec. -/
def demoData : ConfigData :=
  [("train_method", .vstr "nerfacto"), ("sfm_tool", .vstr "colmap"),
   ("matching_method", .vstr "exhaustive"), ("database_path", .vstr "db.db"),
   ("image_dir", .vstr "imgs/"), ("camera_model", .vstr "OPENCV"),
   ("use_gpu", .vint 1)]

/-- The same configuration with matching_method vocab_tree. -/
def demoDataVocab : ConfigData :=
  [("train_method", .vstr "nerfacto"), ("sfm_tool", .vstr "colmap"),
   ("matching_method", .vstr "vocab_tree"), ("database_path", .vstr "db.db"),
   ("image_dir", .vstr "imgs/"), ("camera_model", .vstr "OPENCV"),
   ("use_gpu", .vint 1)]

/-- The same configuration with the train_method key omitted (the field has a
declared dataclass default). -/
def demoDataNoTrain : ConfigData :=
  [("sfm_tool", .vstr "colmap"),
   ("matching_method", .vstr "exhaustive"), ("database_path", .vstr "db.db"),
   ("image_dir", .vstr "imgs/"), ("camera_model", .vstr "OPENCV"),
   ("use_gpu", .vint 1)]

/-- The Preper demoData loads to. -/
def demoPreper : Preper :=
  ⟨.vstr "nerfacto", .vstr "colmap", .vstr "exhaustive", .vstr "db.db",
   .vstr "imgs/", .vstr "OPENCV", .vint 1⟩

/-- An environment in which every command succeeds and the operator always
confirms. -/
def allOkEnv : Env := ⟨[], fun _ => 0, fun _ => ""⟩

/-- An environment in which the operator answers "n" at the first prompt. -/
def declineEnv : Env := ⟨["n"], fun _ => 0, fun _ => ""⟩

/-- An environment in which the feature-extraction command of demoPreper
exits with status 1 and stderr "out of memory" (end-to-end scenario C), and
everything else succeeds. -/
def failExtractEnv : Env :=
  ⟨[], fun c => if c = feature_extractor_cmd demoPreper then 1 else 0,
   fun _ => "out of memory"⟩

/-- An environment in which the operator confirms the first prompt with an
empty line and answers "n" at the second. -/
def declineEnv2 : Env := ⟨["", "n"], fun _ => 0, fun _ => ""⟩

/-- The Preper demoDataVocab loads to. -/
def demoPreperVocab : Preper :=
  ⟨.vstr "nerfacto", .vstr "colmap", .vstr "vocab_tree", .vstr "db.db",
   .vstr "imgs/", .vstr "OPENCV", .vint 1⟩

/- ------------------------------------------------------------------ -/
/- Helper lemmas                                                      -/
/- ------------------------------------------------------------------ -/

theorem append_ne_append (s t x y : String) (i : Nat)
    (hs : i < s.data.length) (ht : i < t.data.length)
    (hne : s.data[i]? ≠ t.data[i]?) : s ++ x ≠ t ++ y := by
  intro h
  apply hne
  have hd : s.data ++ x.data = t.data ++ y.data := congrArg String.data h
  have e1 : (s.data ++ x.data)[i]? = s.data[i]? := List.getElem?_append_left hs
  have e2 : (t.data ++ y.data)[i]? = t.data[i]? := List.getElem?_append_left ht
  rw [← e1, ← e2, hd]

theorem append_ne (s x t : String) (i : Nat) (hs : i < s.data.length)
    (hne : s.data[i]? ≠ t.data[i]?) : s ++ x ≠ t := by
  intro h
  apply hne
  have hd : s.data ++ x.data = t.data := congrArg String.data h
  have e1 : (s.data ++ x.data)[i]? = s.data[i]? := List.getElem?_append_left hs
  rw [← e1, hd]

theorem char_toNat_ofNat (n : Nat) (h : n < 55296) :
    (Char.ofNat n).toNat = n := by
  simp [Char.ofNat, Char.ofNatAux, Char.toNat, Nat.isValidChar, h,
        UInt32.toNat, BitVec.toNat_ofNatLt]

theorem pyCharLower_eq_n_iff (c : Char) :
    pyCharLower c = 'n' ↔ c = 'n' ∨ c = 'N' := by
  unfold pyCharLower
  split
  case isTrue h =>
    constructor
    · intro he
      right
      have h55 : c.toNat + 32 < 55296 := by omega
      have hv : (Char.ofNat (c.toNat + 32)).toNat = c.toNat + 32 :=
        char_toNat_ofNat _ h55
      have h110 : c.toNat + 32 = 110 := by rw [← hv, he]; decide
      have h78 : c.toNat = 78 := by omega
      have hc := Char.ofNat_toNat c
      rw [h78] at hc
      exact hc ▸ rfl
    · rintro (rfl | rfl)
      · exact absurd h (by decide)
      · decide
  case isFalse h =>
    constructor
    · intro he
      exact Or.inl he
    · rintro (rfl | rfl)
      · rfl
      · exact absurd (by decide) h

theorem checkEnum_ok (name : String) (v : Value) (allowed : List Value)
    (h : v ∈ allowed) (hn : Value.vnull ∉ allowed) :
    checkEnum name v allowed = .ok () := by
  have hv : v ≠ Value.vnull := fun he => hn (he ▸ h)
  simp [checkEnum, h, hv]

theorem checkEnum_err (name : String) (v : Value) (allowed : List Value)
    (h : v ∉ allowed) :
    checkEnum name v allowed = .error (.invalidEnumValue name v allowed) := by
  simp [checkEnum, h]

theorem mkPreper_ok (tm sfm mm db img cam gpu : Value)
    (h1 : tm ∈ trainMethodVals) (h2 : sfm ∈ sfmToolVals)
    (h3 : mm ∈ matchingMethodVals) (h4 : cam ∈ cameraModelVals)
    (h5 : gpu ∈ useGpuVals) :
    mkPreper tm sfm mm db img cam gpu = .ok ⟨tm, sfm, mm, db, img, cam, gpu⟩ := by
  simp [mkPreper, checkEnum_ok _ _ _ h1 (by decide),
        checkEnum_ok _ _ _ h2 (by decide), checkEnum_ok _ _ _ h3 (by decide),
        checkEnum_ok _ _ _ h4 (by decide), checkEnum_ok _ _ _ h5 (by decide)]

/- ------------------------------------------------------------------ -/
/- Claim theorems                                                     -/
/- ------------------------------------------------------------------ -/

/-- C9: at a confirmation prompt, the only operator response treated as a
decline is the exact string "n" compared case-insensitively — i.e. "n" or
"N"; every other response (including "no", "N o", and the empty line) is
treated as affirmative. -/
theorem c9_decline_exactly_n (s : String) :
    prompt_declines s = true ↔ s = "n" ∨ s = "N" := by
  constructor
  · intro h
    obtain ⟨l⟩ := s
    have h' : pyLower (String.mk l) = "n" := by
      simpa [prompt_declines] using h
    have hd : l.map pyCharLower = ['n'] := congrArg String.data h'
    cases l with
    | nil => simp at hd
    | cons c rest =>
      simp at hd
      obtain ⟨hc, hrest⟩ := hd
      subst hrest
      rcases (pyCharLower_eq_n_iff c).1 hc with rfl | rfl
      · exact Or.inl rfl
      · exact Or.inr rfl
  · rintro (rfl | rfl) <;> decide

/-- C4: whenever one of the five enumerated fields (train_method, sfm_tool —
the spec calls it reconstruction_tool —, matching_method, camera_model,
use_gpu) is given a value outside its closed set, constructing the Preper
fails with a ValueError carrying the name of an offending field, the value it
holds, and that field's allowed set (the value indeed lying outside the
set). -/
theorem c4_invalid_enum_rejected (tm sfm mm db img cam gpu : Value)
    (h : ¬ (tm ∈ trainMethodVals ∧ sfm ∈ sfmToolVals ∧ mm ∈ matchingMethodVals
            ∧ cam ∈ cameraModelVals ∧ gpu ∈ useGpuVals)) :
    ∃ f v a, mkPreper tm sfm mm db img cam gpu
        = .error (.invalidEnumValue f v a) ∧ v ∉ a ∧
      ((f = "train_method" ∧ v = tm ∧ a = trainMethodVals) ∨
       (f = "sfm_tool" ∧ v = sfm ∧ a = sfmToolVals) ∨
       (f = "matching_method" ∧ v = mm ∧ a = matchingMethodVals) ∨
       (f = "camera_model" ∧ v = cam ∧ a = cameraModelVals) ∨
       (f = "use_gpu" ∧ v = gpu ∧ a = useGpuVals)) := by
  by_cases h1 : tm ∈ trainMethodVals
  · by_cases h2 : sfm ∈ sfmToolVals
    · by_cases h3 : mm ∈ matchingMethodVals
      · by_cases h4 : cam ∈ cameraModelVals
        · by_cases h5 : gpu ∈ useGpuVals
          · exact absurd ⟨h1, h2, h3, h4, h5⟩ h
          · refine ⟨"use_gpu", gpu, useGpuVals, ?_, h5, by simp⟩
            simp [mkPreper, checkEnum_ok _ _ _ h1 (by decide),
                  checkEnum_ok _ _ _ h2 (by decide),
                  checkEnum_ok _ _ _ h3 (by decide),
                  checkEnum_ok _ _ _ h4 (by decide), checkEnum_err _ _ _ h5]
        · refine ⟨"camera_model", cam, cameraModelVals, ?_, h4, by simp⟩
          simp [mkPreper, checkEnum_ok _ _ _ h1 (by decide),
                checkEnum_ok _ _ _ h2 (by decide),
                checkEnum_ok _ _ _ h3 (by decide), checkEnum_err _ _ _ h4]
      · refine ⟨"matching_method", mm, matchingMethodVals, ?_, h3, by simp⟩
        simp [mkPreper, checkEnum_ok _ _ _ h1 (by decide),
              checkEnum_ok _ _ _ h2 (by decide), checkEnum_err _ _ _ h3]
    · refine ⟨"sfm_tool", sfm, sfmToolVals, ?_, h2, by simp⟩
      simp [mkPreper, checkEnum_ok _ _ _ h1 (by decide), checkEnum_err _ _ _ h2]
  · refine ⟨"train_method", tm, trainMethodVals, ?_, h1, by simp⟩
    simp [mkPreper, checkEnum_err _ _ _ h1]

/-- C4 witness: a configuration whose sfm_tool is "pixsfm" (outside the
closed set) is rejected, and the carried error data names an invalid field
with its value and allowed set. -/
theorem c4_invalid_enum_rejected_wit :
    ∃ f v a,
      mkPreper (.vstr "nerfacto") (.vstr "pixsfm") (.vstr "exhaustive")
          (.vstr "db.db") (.vstr "imgs/") (.vstr "OPENCV") (.vint 1)
        = .error (.invalidEnumValue f v a) ∧ v ∉ a ∧
      ((f = "train_method" ∧ v = Value.vstr "nerfacto" ∧ a = trainMethodVals) ∨
       (f = "sfm_tool" ∧ v = Value.vstr "pixsfm" ∧ a = sfmToolVals) ∨
       (f = "matching_method" ∧ v = Value.vstr "exhaustive" ∧ a = matchingMethodVals) ∨
       (f = "camera_model" ∧ v = Value.vstr "OPENCV" ∧ a = cameraModelVals) ∨
       (f = "use_gpu" ∧ v = Value.vint 1 ∧ a = useGpuVals)) :=
  c4_invalid_enum_rejected (.vstr "nerfacto") (.vstr "pixsfm")
    (.vstr "exhaustive") (.vstr "db.db") (.vstr "imgs/") (.vstr "OPENCV")
    (.vint 1) (by decide)

/-- C6: for a configuration whose sfm_tool lies in its closed set, the built
mapping command list contains the fixed flag
--Mapper.ba_global_function_tolerance=1e-6 exactly when sfm_tool is colmap;
for glomap it is absent. -/
theorem c6_mapper_tolerance_flag (p : Preper) (sdir : String)
    (hs : p.sfm_tool ∈ sfmToolVals) :
    "--Mapper.ba_global_function_tolerance=1e-6" ∈ mapper_cmd_list p sdir ↔
      p.sfm_tool = Value.vstr "colmap" := by
  constructor
  · intro hmem
    by_cases hc : p.sfm_tool = Value.vstr "colmap"
    · exact hc
    · exfalso
      have hg : p.sfm_tool = Value.vstr "glomap" := by
        simp [sfmToolVals, hc] at hs
        exact hs
      have hlist : mapper_cmd_list p sdir =
          [Value.pystr (Value.vstr "glomap") ++ " mapper",
           "--database_path " ++ p.database_path.pystr,
           "--image_path " ++ p.image_dir.pystr,
           "--output_path " ++ sdir] := by
        simp [mapper_cmd_list, hc, hg]
      rw [hlist] at hmem
      simp only [List.mem_cons, List.not_mem_nil, or_false] at hmem
      rcases hmem with h | h | h | h
      · exact absurd h (by decide)
      · exact append_ne "--database_path " p.database_path.pystr
          "--Mapper.ba_global_function_tolerance=1e-6" 2
          (by decide) (by decide) h.symm
      · exact append_ne "--image_path " p.image_dir.pystr
          "--Mapper.ba_global_function_tolerance=1e-6" 2
          (by decide) (by decide) h.symm
      · exact append_ne "--output_path " sdir
          "--Mapper.ba_global_function_tolerance=1e-6" 2
          (by decide) (by decide) h.symm
  · intro hc
    simp [mapper_cmd_list, hc]

/-- C6 witness: for the demo colmap configuration the flag is in the mapping
command list, and it would be exactly under sfm_tool = colmap. -/
theorem c6_mapper_tolerance_flag_wit :
    "--Mapper.ba_global_function_tolerance=1e-6"
        ∈ mapper_cmd_list demoPreper "out/colmap/sparse" ↔
      demoPreper.sfm_tool = Value.vstr "colmap" :=
  c6_mapper_tolerance_flag demoPreper "out/colmap/sparse" (by decide)

/-- C7: the built feature-matching command list starts with the sub-command
named after matching_method ("colmap <matching_method>_matcher"), always
contains the database path and the GPU flag, and contains the vocab-tree
asset path wrapped in double quotes exactly when matching_method is
vocab_tree. -/
theorem c7_matcher_cmd_shape (p : Preper) (vp : Option String) :
    (feature_matcher_cmd_list p vp).head?
        = some ("colmap " ++ p.matching_method.pystr ++ "_matcher")
    ∧ ("--database_path " ++ p.database_path.pystr) ∈ feature_matcher_cmd_list p vp
    ∧ ("--SiftMatching.use_gpu " ++ p.use_gpu.pystr) ∈ feature_matcher_cmd_list p vp
    ∧ (("--VocabTreeMatching.vocab_tree_path \"" ++ pyOptStr vp ++ "\"")
          ∈ feature_matcher_cmd_list p vp
        ↔ p.matching_method = Value.vstr "vocab_tree") := by
  refine ⟨rfl, by simp [feature_matcher_cmd_list], by simp [feature_matcher_cmd_list], ?_⟩
  constructor
  · intro hmem
    by_cases hv : p.matching_method = Value.vstr "vocab_tree"
    · exact hv
    · exfalso
      simp [feature_matcher_cmd_list, hv] at hmem
      rcases hmem with h | h | h
      · rw [String.append_assoc, String.append_assoc] at h
        exact append_ne_append "--VocabTreeMatching.vocab_tree_path \"" "colmap "
          _ _ 0 (by decide) (by decide) (by decide) h
      · rw [String.append_assoc] at h
        exact append_ne_append "--VocabTreeMatching.vocab_tree_path \""
          "--database_path " _ _ 2 (by decide) (by decide) (by decide) h
      · rw [String.append_assoc] at h
        exact append_ne_append "--VocabTreeMatching.vocab_tree_path \""
          "--SiftMatching.use_gpu " _ _ 2 (by decide) (by decide) (by decide) h
  · intro hv
    simp [feature_matcher_cmd_list, hv]

/-- C3: for a valid configuration with matching_method vocab_tree and a
vocab-tree path that is null or does not end in ".fbow", the run fails at the
vocab-tree-path check before any external command is executed — the trace is
empty, so no process is invoked for any stage.  A non-.fbow path raises the
FileNotFoundError of the check; a null path raises an AttributeError at the
endswith call on None, still inside the check and still before any command. -/
theorem c3_vocab_path_fail_fast (data : ConfigData) (odir : String)
    (vpath : Option String) (pf verbose : Bool) (env : Env) (p : Preper)
    (hp : read_config_file data = .ok p)
    (hm : p.matching_method = Value.vstr "vocab_tree")
    (hbad : vpath = none ∨ ∃ s, vpath = some s ∧ pyEndsWith s ".fbow" = false) :
    ∃ e, run_sfm data odir vpath pf verbose env = ([], .raised e) ∧
      ((vpath = none ∧
          e = .attributeError "NoneType object has no attribute endswith") ∨
       (∃ s, vpath = some s ∧
          e = .fileNotFound ("Supplied file [" ++ s ++
            "] does not end with \x27.fbow\x27, a valid vocab tree path is needed."))) := by
  rcases hbad with rfl | ⟨s, rfl, hs⟩
  · refine ⟨_, ?_, Or.inl ⟨rfl, rfl⟩⟩
    simp [run_sfm, hp, vocabCheck, hm]
  · refine ⟨_, ?_, Or.inr ⟨s, rfl, rfl⟩⟩
    simp [run_sfm, hp, vocabCheck, hm, hs]

/-- C3 witness: the vocab_tree demo configuration with path "tree.txt" fails
before any external command. -/
theorem c3_vocab_path_fail_fast_wit :
    ∃ e, run_sfm demoDataVocab "out/" (some "tree.txt") false false allOkEnv
        = ([], .raised e) ∧
      ((some "tree.txt" = (none : Option String) ∧
          e = .attributeError "NoneType object has no attribute endswith") ∨
       (∃ s, (some "tree.txt" : Option String) = some s ∧
          e = .fileNotFound ("Supplied file [" ++ s ++
            "] does not end with \x27.fbow\x27, a valid vocab tree path is needed."))) :=
  c3_vocab_path_fail_fast demoDataVocab "out/" (some "tree.txt") false false
    allOkEnv demoPreperVocab (by rfl) (by rfl)
    (Or.inr ⟨"tree.txt", rfl, by rfl⟩)

/-- C10: for a valid configuration whose matching_method is exhaustive or
sequential, the vocab-tree path has no effect on the run: the built
feature-matching command is the same for any two path values (the extraction
and mapping commands do not depend on it at all), and the entire run — trace
and outcome — is identical. -/
theorem c10_vocab_path_noninterference (data : ConfigData) (odir : String)
    (v1 v2 : Option String) (pf verbose : Bool) (env : Env) (p : Preper)
    (hp : read_config_file data = .ok p)
    (hm : p.matching_method = Value.vstr "exhaustive" ∨
          p.matching_method = Value.vstr "sequential") :
    feature_matcher_cmd p v1 = feature_matcher_cmd p v2 ∧
    run_sfm data odir v1 pf verbose env = run_sfm data odir v2 pf verbose env := by
  have hne : p.matching_method ≠ Value.vstr "vocab_tree" := by
    rcases hm with h | h <;> rw [h] <;> decide
  have hcmd : feature_matcher_cmd p v1 = feature_matcher_cmd p v2 := by
    simp [feature_matcher_cmd, feature_matcher_cmd_list, hne]
  refine ⟨hcmd, ?_⟩
  simp [run_sfm, hp, vocabCheck, hne, hcmd]

/-- C10 witness: for the exhaustive demo configuration, a null path and the
path "whatever" give the same matching command and the same run. -/
theorem c10_vocab_path_noninterference_wit :
    feature_matcher_cmd demoPreper none
        = feature_matcher_cmd demoPreper (some "whatever") ∧
    run_sfm demoData "out/" none false false allOkEnv
        = run_sfm demoData "out/" (some "whatever") false false allOkEnv :=
  c10_vocab_path_noninterference demoData "out/" none (some "whatever")
    false false allOkEnv demoPreper (by rfl) (Or.inl (by rfl))

/-- C1 counterexample: with the prompt enabled and the operator answering "n"
at the first prompt, the process does terminate before any external command
(the trace holds only the prompt), but prompt_user_command calls sys.exit(0),
so the exit code is 0 — not the non-zero code the claim asserts. -/
theorem c1_nonzero_exit_cex :
    run_sfm demoData "out/" none true false declineEnv
      = ([Event.prompted "feature extraction"], Outcome.exitCode 0) := by rfl

/-- C1 as amended: for every run with the confirmation prompt enabled in
which the operator responds "n" at the prompt of stage i (having confirmed
the earlier prompts, whose commands succeeded), the process terminates
immediately with exit code 0 — a deliberate sys.exit(0) cancellation — before
the external command for that stage is executed (the trace ends at that
prompt, with no command event for stage i). -/
theorem c1_decline_exit_code_zero (data : ConfigData) (odir : String)
    (vpath : Option String) (verbose : Bool) (env : Env) (p : Preper) (i : Nat)
    (hp : read_config_file data = .ok p)
    (hv : vocabCheck p vpath = none)
    (hi : i < 3)
    (hd : prompt_declines (response env i) = true)
    (hprev : ∀ j, j < i → prompt_declines (response env j) = false
                ∧ env.ret (stageCmd p odir vpath j) = 0) :
    run_sfm data odir vpath true verbose env
      = (declineTrace p odir vpath i, .exitCode 0) := by
  interval_cases i
  · simp [run_sfm, hp, hv, hd, declineTrace]
  · have h0 := hprev 0 (by omega)
    have h0r : env.ret (feature_extractor_cmd p) = 0 := h0.2
    simp [run_sfm, hp, hv, hd, h0.1, h0r, declineTrace, pev]
  · have h0 := hprev 0 (by omega)
    have h1 := hprev 1 (by omega)
    have h0r : env.ret (feature_extractor_cmd p) = 0 := h0.2
    have h1r : env.ret (feature_matcher_cmd p vpath) = 0 := h1.2
    simp [run_sfm, hp, hv, hd, h0.1, h1.1, h0r, h1r, declineTrace, pev]

/-- C1 witness: the operator confirms the extraction prompt with an empty
line and declines the matching prompt; the run stops at that prompt with
exit code 0. -/
theorem c1_decline_exit_code_zero_wit :
    run_sfm demoData "out/" none true false declineEnv2
      = (declineTrace demoPreper "out/" none 1, .exitCode 0) :=
  c1_decline_exit_code_zero demoData "out/" none false declineEnv2 demoPreper 1
    (by rfl) (by rfl) (by omega) (by rfl)
    (fun j hj => by interval_cases j; exact ⟨by rfl, by rfl⟩)

/-- C2 counterexample: a configuration file holding the required
database_path and image_dir but omitting train_method — a field with a
declared dataclass default — does not load with the default filled in; the
loader subscripts every key, so it fails with KeyError "train_method". -/
theorem c2_default_fields_cex :
    read_config_file demoDataNoTrain = .error (.keyError "train_method") := by rfl

/-- C2 as amended: read_config_file treats all seven fields as required,
defaults notwithstanding: whenever any of the seven keys is absent from the
file, loading fails with a KeyError naming an absent key (the first one in
argument-evaluation order); the dataclass defaults are never consulted by the
loader. -/
theorem c2_loader_requires_all_keys (data : ConfigData)
    (h : ∃ k ∈ requiredKeys, data.lookup k = none) :
    ∃ k, read_config_file data = .error (.keyError k)
      ∧ k ∈ requiredKeys ∧ data.lookup k = none := by
  by_cases h1 : data.lookup "train_method" = none
  · exact ⟨_, by simp [read_config_file, getKey, h1], by simp [requiredKeys], h1⟩
  · obtain ⟨v1, hv1⟩ := Option.ne_none_iff_exists'.mp h1
    by_cases h2 : data.lookup "sfm_tool" = none
    · exact ⟨_, by simp [read_config_file, getKey, hv1, h2],
        by simp [requiredKeys], h2⟩
    · obtain ⟨v2, hv2⟩ := Option.ne_none_iff_exists'.mp h2
      by_cases h3 : data.lookup "matching_method" = none
      · exact ⟨_, by simp [read_config_file, getKey, hv1, hv2, h3],
          by simp [requiredKeys], h3⟩
      · obtain ⟨v3, hv3⟩ := Option.ne_none_iff_exists'.mp h3
        by_cases h4 : data.lookup "database_path" = none
        · exact ⟨_, by simp [read_config_file, getKey, hv1, hv2, hv3, h4],
            by simp [requiredKeys], h4⟩
        · obtain ⟨v4, hv4⟩ := Option.ne_none_iff_exists'.mp h4
          by_cases h5 : data.lookup "image_dir" = none
          · exact ⟨_, by simp [read_config_file, getKey, hv1, hv2, hv3, hv4, h5],
              by simp [requiredKeys], h5⟩
          · obtain ⟨v5, hv5⟩ := Option.ne_none_iff_exists'.mp h5
            by_cases h6 : data.lookup "camera_model" = none
            · exact ⟨_, by simp [read_config_file, getKey, hv1, hv2, hv3, hv4,
                hv5, h6], by simp [requiredKeys], h6⟩
            · obtain ⟨v6, hv6⟩ := Option.ne_none_iff_exists'.mp h6
              by_cases h7 : data.lookup "use_gpu" = none
              · exact ⟨_, by simp [read_config_file, getKey, hv1, hv2, hv3, hv4,
                  hv5, hv6, h7], by simp [requiredKeys], h7⟩
              · exfalso
                obtain ⟨k, hk, hnone⟩ := h
                simp [requiredKeys] at hk
                rcases hk with rfl | rfl | rfl | rfl | rfl | rfl | rfl <;>
                  simp_all

/-- C2 witness: the amended claim applied to the file missing train_method. -/
theorem c2_loader_requires_all_keys_wit :
    ∃ k, read_config_file demoDataNoTrain = .error (.keyError k)
      ∧ k ∈ requiredKeys ∧ demoDataNoTrain.lookup k = none :=
  c2_loader_requires_all_keys demoDataNoTrain ⟨"train_method", by decide, by rfl⟩

/-- C5 counterexample: in a verbose run whose extraction command exits 1, the
executor prints the failing command but never prints the standard error —
output was not captured, out.stderr is None, and the decode call raises
AttributeError — so the claim "prints ... the captured standard error" fails;
the process still terminates (non-zero, via the uncaught exception) and no
later stage runs. -/
theorem c5_verbose_stderr_cex :
    run_sfm demoData "out/" none false true failExtractEnv
      = ([Event.execCmd (feature_extractor_cmd demoPreper),
          Event.printedCmd (feature_extractor_cmd demoPreper)],
         Outcome.raised (.attributeError decodeMsg)) := by rfl

/-- C5 as amended: for every stage whose external command exits non-zero
(earlier stages having succeeded, no prompt declined), the run stops at that
stage and no subsequent command is executed; in non-verbose (captured) mode
the executor prints the failing command and the captured standard error and
terminates the process via sys.exit(1); in verbose mode nothing was captured,
so it prints the failing command and then terminates through the
AttributeError raised by decoding the absent stderr — in both cases a
non-zero process exit. -/
theorem c5_stage_failure_halts (data : ConfigData) (odir : String)
    (vpath : Option String) (pf verbose : Bool) (env : Env) (p : Preper)
    (i : Nat)
    (hp : read_config_file data = .ok p)
    (hv : vocabCheck p vpath = none)
    (hi : i < 3)
    (hnd : ∀ j, j ≤ i → prompt_declines (response env j) = false)
    (hprev : ∀ j, j < i → env.ret (stageCmd p odir vpath j) = 0)
    (hfail : env.ret (stageCmd p odir vpath i) ≠ 0) :
    run_sfm data odir vpath pf verbose env
      = (failTrace pf verbose p odir vpath env i, failOutcome verbose) := by
  interval_cases i
  · have hf : env.ret (feature_extractor_cmd p) ≠ 0 := hfail
    have hd0 := hnd 0 (by omega)
    cases verbose <;>
      simp [run_sfm, hp, hv, hd0, hf, failTrace, failTail, failOutcome]
  · have hf : env.ret (feature_matcher_cmd p vpath) ≠ 0 := hfail
    have h0r : env.ret (feature_extractor_cmd p) = 0 := hprev 0 (by omega)
    have hd0 := hnd 0 (by omega)
    have hd1 := hnd 1 (by omega)
    cases verbose <;>
      simp [run_sfm, hp, hv, hd0, hd1, h0r, hf, failTrace, failTail, failOutcome]
  · have hf : env.ret (mapper_cmd p (sparse_dir odir p)) ≠ 0 := hfail
    have h0r : env.ret (feature_extractor_cmd p) = 0 := hprev 0 (by omega)
    have h1r : env.ret (feature_matcher_cmd p vpath) = 0 := hprev 1 (by omega)
    have hd0 := hnd 0 (by omega)
    have hd1 := hnd 1 (by omega)
    have hd2 := hnd 2 (by omega)
    cases verbose <;>
      simp [run_sfm, hp, hv, hd0, hd1, hd2, h0r, h1r, hf, failTrace, failTail,
            failOutcome]

/-- C5 witness: end-to-end scenario C — the extraction binary exits 1 with
stderr "out of memory" in a captured-mode run; the trace ends with the
command and stderr printouts and the process exits 1, matching and mapping
never running. -/
theorem c5_stage_failure_halts_wit :
    run_sfm demoData "out/" none false false failExtractEnv
      = (failTrace false false demoPreper "out/" none failExtractEnv 0,
         failOutcome false) :=
  c5_stage_failure_halts demoData "out/" none false false failExtractEnv
    demoPreper 0 (by rfl) (by rfl) (by omega)
    (fun j hj => by interval_cases j; rfl)
    (fun j hj => absurd hj (by omega)) (by decide)

/-- C8: in every run that reaches the mapping stage (extraction and matching
succeeded, their prompts confirmed), the directory
output_dir / sfm_tool / "sparse" is created — with parents=True and
exist_ok=True, so parent directories are included and a pre-existing
directory is not an error — before anything of the mapping stage happens
(the remainder of the trace after the mkdir holds at most the mapper prompt
and the mapper command events), and the mapping command's --output_path
argument is exactly that directory. -/
theorem c8_sparse_dir_before_mapper (data : ConfigData) (odir : String)
    (vpath : Option String) (pf verbose : Bool) (env : Env) (p : Preper)
    (hp : read_config_file data = .ok p)
    (hv : vocabCheck p vpath = none)
    (hnd0 : prompt_declines (response env 0) = false)
    (hnd1 : prompt_declines (response env 1) = false)
    (hr0 : env.ret (feature_extractor_cmd p) = 0)
    (hr1 : env.ret (feature_matcher_cmd p vpath) = 0) :
    ∃ rest out,
      run_sfm data odir vpath pf verbose env
        = (pev pf "feature extraction" ++ [.execCmd (feature_extractor_cmd p)]
           ++ pev pf "feature matching"
           ++ [.execCmd (feature_matcher_cmd p vpath)]
           ++ [.mkdirCall (sparse_dir odir p) true true]
           ++ pev pf "mapper" ++ rest, out)
      ∧ (rest = []
         ∨ rest = [.execCmd (mapper_cmd p (sparse_dir odir p))]
         ∨ rest = failTail verbose env (mapper_cmd p (sparse_dir odir p)))
      ∧ ("--output_path " ++ sparse_dir odir p)
          ∈ mapper_cmd_list p (sparse_dir odir p) := by
  by_cases hd2 : (pf && prompt_declines (response env 2)) = true
  · have hpf : pf = true := by
      cases pf
      · simp at hd2
      · rfl
    subst hpf
    have hd2r : prompt_declines (response env 2) = true := by simpa using hd2
    refine ⟨[], .exitCode 0, ?_, Or.inl rfl, by simp [mapper_cmd_list]⟩
    simp [run_sfm, hp, hv, hnd0, hnd1, hr0, hr1, hd2r, pev]
  · have hd2r : (pf && prompt_declines (response env 2)) = false := by
      simpa using hd2
    by_cases hr2 : env.ret (mapper_cmd p (sparse_dir odir p)) = 0
    · refine ⟨[.execCmd (mapper_cmd p (sparse_dir odir p))], .done, ?_,
        Or.inr (Or.inl rfl), by simp [mapper_cmd_list]⟩
      simp [run_sfm, hp, hv, hnd0, hnd1, hr0, hr1, hd2r, hr2, pev]
    · refine ⟨failTail verbose env (mapper_cmd p (sparse_dir odir p)),
        failOutcome verbose, ?_, Or.inr (Or.inr rfl), by simp [mapper_cmd_list]⟩
      cases verbose <;>
        simp [run_sfm, hp, hv, hnd0, hnd1, hr0, hr1, hd2r, hr2, pev, failTail,
              failOutcome]

/-- C8 witness: end-to-end scenario A — the sparse directory out/colmap/sparse
is created before the mapping command of the demo colmap run, whose output
path it is. -/
theorem c8_sparse_dir_before_mapper_wit :
    ∃ rest out,
      run_sfm demoData "out/" none false false allOkEnv
        = (pev false "feature extraction"
           ++ [.execCmd (feature_extractor_cmd demoPreper)]
           ++ pev false "feature matching"
           ++ [.execCmd (feature_matcher_cmd demoPreper none)]
           ++ [.mkdirCall (sparse_dir "out/" demoPreper) true true]
           ++ pev false "mapper" ++ rest, out)
      ∧ (rest = []
         ∨ rest = [.execCmd (mapper_cmd demoPreper (sparse_dir "out/" demoPreper))]
         ∨ rest = failTail false allOkEnv
             (mapper_cmd demoPreper (sparse_dir "out/" demoPreper)))
      ∧ ("--output_path " ++ sparse_dir "out/" demoPreper)
          ∈ mapper_cmd_list demoPreper (sparse_dir "out/" demoPreper) :=
  c8_sparse_dir_before_mapper demoData "out/" none false false allOkEnv
    demoPreper (by rfl) (by rfl) (by rfl) (by rfl) (by rfl) (by rfl)

end DataPreper
